import Mathlib

/-!
Verification of the event delivery pipeline of the proton-telemetry browser
client.  The definitions below are a shallow embedding of the TypeScript
sources: `src/sendData.ts` (the batching / retry pipeline, the module that the
repository's `singleton.ts` neighbourhood exposes as `createSendData`),
`src/telemetry.ts` (payload builder, consent gate, `destroy`),
`src/utils/helpers.ts` (`generateMessageId`, `fetchWithHeaders`),
`src/utils/browserAPI.ts` (telemetry-enabled storage) and
`src/crossDomainStorage.ts` (`cleanupCookie`).

Browser platform primitives (timers, `fetch`, `crypto.randomUUID`, `Date`,
`URLSearchParams` iteration, storage) are modelled as explicit state and
environment records; the single-threaded event loop is modelled as a labelled
transition system whose steps are exactly the suspension points of the code:
the debounce timer firing, a retry timer firing, and a pending network
response arriving.
-/

namespace ProtonTelemetry

/-! ### JavaScript value model and helpers -/

/-- A JavaScript value, as far as the pipeline inspects one: the payload
builder stores caller supplied `Record<string, unknown>` data and reads
truthiness of one field. -/
inductive JsValue where
  | undef
  | null
  | bool (b : Bool)
  | num (n : Int)
  | str (s : String)
  | arr (elems : List JsValue)
  | obj (fields : List (String × JsValue))
deriving Repr

/-- JavaScript truthiness on the modelled values. -/
def jsTruthy : JsValue → Bool
  | .undef => false
  | .null => false
  | .bool b => b
  | .num n => n != 0
  | .str s => s != ""
  | .arr _ => true
  | .obj _ => true

/-- JavaScript property assignment on an object modelled as an ordered field
list: assigning an existing key overwrites its value in place, a new key is
appended. -/
def recordSet {α : Type} (fields : List (String × α)) (k : String) (v : α) :
    List (String × α) :=
  if fields.any (fun p => p.1 == k) then
    fields.map (fun p => if p.1 == k then (k, v) else p)
  else
    fields ++ [(k, v)]

/-- Build a JavaScript object by assigning a list of key/value pairs in
order (later duplicates overwrite earlier ones). -/
def recordFromPairs {α : Type} (ps : List (String × α)) : List (String × α) :=
  ps.foldl (fun acc p => recordSet acc p.1 p.2) []

/-- First value stored under a key, as `URLSearchParams.get` returns it. -/
def recordGet {α : Type} (fields : List (String × α)) (k : String) : Option α :=
  (fields.find? (fun p => p.1 == k)).map (·.2)

/-- Truthiness of a `string | null` value (`null` and the empty string are
falsy). -/
def truthyOptStr : Option String → Bool
  | some s => s != ""
  | none => false

/-- JavaScript `a || b` on two `string | null` values. -/
def jsOrStr (a b : Option String) : Option String :=
  if truthyOptStr a then a else b

/-- `String.prototype.padStart(2, '0')`. -/
def padStart2Zero (s : String) : String :=
  if 2 ≤ s.length then s
  else String.mk (List.replicate (2 - s.length) '0') ++ s

/-- `String.prototype.replace` with a string pattern: only the first
occurrence is replaced. -/
def replaceFirst (s pat rep : String) : String :=
  match s.splitOn pat with
  | [] => s
  | [x] => x
  | x :: rest => x ++ rep ++ String.intercalate pat rest

/-- Whitespace skipped by `parseInt` (ASCII portion). -/
def isJsWhitespace (c : Char) : Bool :=
  c == ' ' || c == '\t' || c == '\n' || c == '\r' || c == '\x0b' || c == '\x0c'

/-- `parseInt(s, 10)`: skip leading whitespace, optional sign, then the
longest prefix of decimal digits; `none` models `NaN`. -/
def jsParseInt10 (s : String) : Option Int :=
  let cs := s.toList.dropWhile isJsWhitespace
  let signAndRest : Int × List Char :=
    match cs with
    | '+' :: rest => (1, rest)
    | '-' :: rest => (-1, rest)
    | _ => (1, cs)
  let digits := signAndRest.2.takeWhile (·.isDigit)
  if digits.isEmpty then none
  else
    some (signAndRest.1 *
      (digits.foldl (fun acc c => acc * 10 + (c.toNat - '0'.toNat)) 0 : Nat))

/-! ### Data model (src/types.ts) -/

inductive EventPriority where
  | high
  | low
deriving Repr, DecidableEq

structure Campaign where
  name : String
  source : String
  medium : String
  term : String
  content : String
deriving Repr

structure Library where
  name : String
  version : String
deriving Repr

structure Page where
  title : String
  url : String
  path : String
  referrer : String
  queryString : String
  queryParams : List (String × String)
deriving Repr

structure Referrer where
  type : String
  name : String
  url : String
deriving Repr

structure Screen where
  width : Nat
  height : Nat
  density : Rat
deriving Repr

structure EventContext where
  campaign : Campaign
  library : Library
  browserLocale : String
  page : Page
  referrer : Referrer
  screen : Screen
  timezone : String
  userAgent : String
  features : JsValue
deriving Repr

structure TelemetryEvent where
  aId : String
  messageId : String
  clientEventTimestampUtc : String
  clientEventTimestampLocal : String
  eventType : String
  context : EventContext
  properties : List (String × JsValue)
deriving Repr

/-- A queue entry: an event record tagged with a delivery priority. -/
structure QueuedEvent where
  event : TelemetryEvent
  priority : EventPriority
deriving Repr

/-! ### Message identifiers (src/utils/helpers.ts, generateMessageId) -/

/-- The platform UUID source behind `generateMessageId`
(`crypto.randomUUID`, with a `Math.random` based fallback), modelled as an
abstract stream of identifier strings indexed by how many identifiers have
been generated so far. -/
structure IdSupply where
  ids : Nat → String

/-- `generateMessageId()`: draw the next identifier from the platform
stream. -/
def generateMessageId (sup : IdSupply) (k : Nat) : String := sup.ids k

/-! ### Payload builder (src/telemetry.ts, createEventPayload) -/

/-- Environment read by `createEventPayload`: the telemetry state fields it
closes over (`state.aId`, `state.userLanguage`, `state.userTimezone`) and the
platform reads (`window.location`, `document`, `screen`, `navigator`,
`Date`).  `nowIso` and `shiftedIso` are the platform's `toISOString`
renderings of `now` and of `new Date(now.getTime() - offset * 60000)`;
`densityFixed2` is the platform's `Number(devicePixelRatio.toFixed(2))`. -/
structure PayloadEnv where
  aId : String
  userLanguage : String
  userTimezone : String
  nowIso : String
  shiftedIso : String
  tzOffsetMinutes : Int
  locationHref : String
  locationPathname : String
  locationSearch : String
  searchParams : List (String × String)
  documentTitle : String
  documentReferrer : String
  screenWidth : Nat
  screenHeight : Nat
  densityFixed2 : Rat
  userAgent : String

/-- `createEventPayload` from src/telemetry.ts: stamps a fresh event record
with the supplied message identifier, both timestamps, the `utm_` filtered
query parameters and the environmental context. -/
def createEventPayload (appVersion : String) (env : PayloadEnv)
    (messageId : String) (eventType : String)
    (eventData : Option (List (String × JsValue)))
    (customData : Option (List (String × JsValue))) : TelemetryEvent :=
  let queryParams :=
    recordFromPairs (env.searchParams.filter (fun p => p.1.startsWith "utm_"))
  let urlGet := fun k => (recordGet env.searchParams k).getD ""
  let utcTimestamp := replaceFirst env.nowIso "Z" "+00:00"
  let offset : Int := -env.tzOffsetMinutes
  let offsetHours := padStart2Zero (toString (offset.natAbs / 60))
  let offsetMinutes := padStart2Zero (toString (offset.natAbs % 60))
  let offsetSign := if 0 ≤ offset then "+" else "-"
  let localTimestamp :=
    replaceFirst env.shiftedIso "Z" (offsetSign ++ offsetHours ++ ":" ++ offsetMinutes)
  let featuresRaw : JsValue :=
    match customData with
    | some cd => (recordGet cd "features").getD .undef
    | none => .undef
  let dataValue : JsValue :=
    match customData with
    | some cd => .obj cd
    | none => .undef
  { aId := env.aId
    messageId := messageId
    clientEventTimestampUtc := utcTimestamp
    clientEventTimestampLocal := localTimestamp
    eventType := eventType
    context :=
      { campaign :=
          { name := urlGet "utm_campaign"
            source := urlGet "utm_source"
            medium := urlGet "utm_medium"
            term := urlGet "utm_term"
            content := urlGet "utm_content" }
        library := { name := "proton-telemetry", version := appVersion }
        browserLocale := env.userLanguage
        page :=
          { title := env.documentTitle
            url := env.locationHref
            path := env.locationPathname
            referrer := env.documentReferrer
            queryString := env.locationSearch
            queryParams := queryParams }
        referrer := { type := "", name := "", url := env.documentReferrer }
        screen :=
          { width := env.screenWidth
            height := env.screenHeight
            density := env.densityFixed2 }
        timezone := env.userTimezone
        userAgent := env.userAgent
        features := if jsTruthy featuresRaw then featuresRaw else .obj [] }
    properties :=
      recordSet (recordFromPairs (eventData.getD [])) "data" dataValue }

/-! ### The delivery pipeline (src/sendData.ts) -/

/-- The config slice `createSendData` receives. -/
structure SendDataConfig where
  debug : Bool
  dryRun : Bool
  endpoint : String
  appVersion : String
  uidHeader : Option String

/-- Modelled from the spec: `BATCH_DELAY` and `MAX_RETRIES` are imported from
`src/constants.ts`, a file that is not present under src/; the spec describes
them as a fixed short debounce delay and a fixed maximum retry count, so they
are carried as abstract constants. -/
structure Constants where
  BATCH_DELAY : Nat
  MAX_RETRIES : Nat

/-- Outcome of one `fetchWithHeaders` call: an HTTP response together with
the value `response.headers.get('retry-after')` would return, or a network
level exception. -/
inductive FetchOutcome where
  | response (status : Nat) (retryAfter : Option String)
  | networkError

/-- An in-flight `fetchWithHeaders` call made by `sendBatch`: the serialized
batch and whether the call belongs to a retry attempt. -/
structure PendingFetch where
  batch : List TelemetryEvent
  isRetryAttempt : Bool
deriving Repr

/-- An armed retry timer: the `setTimeout` scheduled by the retry branch of
`sendBatch`, carrying the frozen batch it will resend. -/
structure PendingRetry where
  delayMs : Nat
  batch : List TelemetryEvent
deriving Repr

/-- The mutable state owned by `createSendData` (its `state` record plus the
platform resources it drives): the event queue, whether `state.batchTimeout`
holds an armed debounce timer, the retry counter, the armed retry timers,
the in-flight network calls, and the log of network call bodies. -/
structure PipelineState where
  eventQueue : List QueuedEvent
  batchTimeoutArmed : Bool
  retryCount : Nat
  pendingFetches : List PendingFetch
  pendingRetryTimers : List PendingRetry
  networkCalls : List (List TelemetryEvent)
deriving Repr

def initialPipelineState : PipelineState :=
  { eventQueue := []
    batchTimeoutArmed := false
    retryCount := 0
    pendingFetches := []
    pendingRetryTimers := []
    networkCalls := [] }

/-- The synchronous prefix of `sendBatch(eventsToProcess?)` up to the
`fetchWithHeaders` suspension point: a retry call uses the events passed to
it, a first-attempt call splices the whole queue.  Returns the new state and
`some b` when `sendBatch` returned synchronously with `b` (empty batch),
`none` when a network call is now in flight. -/
def sendBatchStart (st : PipelineState)
    (eventsToProcess : Option (List TelemetryEvent)) :
    PipelineState × Option Bool :=
  let isRetryAttempt := eventsToProcess.isSome
  let pair : List TelemetryEvent × PipelineState :=
    match eventsToProcess with
    | some evs => (evs, st)
    | none => (st.eventQueue.map (·.event), { st with eventQueue := [] })
  let itemsForThisBatch := pair.1
  let st1 := pair.2
  if itemsForThisBatch.isEmpty then (st1, some true)
  else
    ({ st1 with
        pendingFetches :=
          st1.pendingFetches ++ [⟨itemsForThisBatch, isRetryAttempt⟩]
        networkCalls := st1.networkCalls ++ [itemsForThisBatch] },
      none)

/-- `Response.ok`: status in the 2xx range. -/
def responseOk (status : Nat) : Bool := 200 ≤ status && status ≤ 299

/-- The `delayMs` computation of `sendBatch`: `parseInt` the header and
accept only a non-negative result, in milliseconds. -/
def retryDelayMs (retryAfterHeader : Option String) : Option Nat :=
  match jsParseInt10 (retryAfterHeader.getD "") with
  | some n => if 0 ≤ n then some (n.toNat * 1000) else none
  | none => none

/-- The continuation of `sendBatch` after its awaited network call settles:
classify the outcome exactly as the code does and return the new state and
the boolean the `sendBatch` promise resolves with. -/
def handleFetchOutcome (C : Constants) (st : PipelineState) (f : PendingFetch)
    (outcome : FetchOutcome) : PipelineState × Bool :=
  match outcome with
  | .networkError => ({ st with retryCount := 0 }, false)
  | .response status retryAfterHeader =>
    if responseOk status then
      (if f.isRetryAttempt then { st with retryCount := 0 } else st, true)
    else
      let canRetry :=
        (status == 429 || status == 503) && truthyOptStr retryAfterHeader
      if canRetry then
        match retryDelayMs retryAfterHeader with
        | some d =>
          if st.retryCount < C.MAX_RETRIES then
            ({ st with
                retryCount := st.retryCount + 1
                pendingRetryTimers :=
                  st.pendingRetryTimers ++ [⟨d, f.batch⟩] },
              false)
          else ({ st with retryCount := 0 }, false)
        | none => ({ st with retryCount := 0 }, false)
      else ({ st with retryCount := 0 }, false)

/-- `sendData` after the payload has been built: dry-run short-circuits,
otherwise the entry is appended to the queue and a debounce timer is armed
only when none is pending and no retry is in progress. -/
def sendDataStep (cfg : SendDataConfig) (st : PipelineState)
    (qe : QueuedEvent) : PipelineState :=
  if cfg.dryRun then st
  else
    let st1 := { st with eventQueue := st.eventQueue ++ [qe] }
    if !st1.batchTimeoutArmed && st1.retryCount == 0 then
      { st1 with batchTimeoutArmed := true }
    else st1

/-- A sequence of `sendData` calls in order. -/
def submitMany (cfg : SendDataConfig) (st : PipelineState)
    (qes : List QueuedEvent) : PipelineState :=
  qes.foldl (sendDataStep cfg) st

/-- The debounce timer fires: `state.batchTimeout` is cleared before sending
and `sendBatch()` runs with no arguments. -/
def debounceFireStep (st : PipelineState) :
    Option (PipelineState × Option Bool) :=
  if st.batchTimeoutArmed then
    some (sendBatchStart { st with batchTimeoutArmed := false } none)
  else none

/-- The i-th armed retry timer fires: `sendBatch(itemsForThisBatch)` runs
with the frozen batch. -/
def retryFireStep (st : PipelineState) (i : Nat) :
    Option (PipelineState × Option Bool) :=
  match st.pendingRetryTimers[i]? with
  | some pr =>
    some (sendBatchStart
      { st with pendingRetryTimers := st.pendingRetryTimers.eraseIdx i }
      (some pr.batch))
  | none => none

/-- The i-th in-flight network call settles with the given outcome. -/
def fetchResolveStep (C : Constants) (st : PipelineState) (i : Nat)
    (outcome : FetchOutcome) : Option (PipelineState × Bool) :=
  match st.pendingFetches[i]? with
  | some f =>
    some (handleFetchOutcome C
      { st with pendingFetches := st.pendingFetches.eraseIdx i } f outcome)
  | none => none

/-- One round of a retry chain driven by a fixed server outcome: the oldest
in-flight call settles, and if that scheduled a retry timer it fires. -/
def chainRound (C : Constants) (outcome : FetchOutcome)
    (st : PipelineState) : PipelineState :=
  match fetchResolveStep C st 0 outcome with
  | none => st
  | some (st1, _) =>
    match retryFireStep st1 0 with
    | none => st1
    | some (st2, _) => st2

/-! ### The full `sendData` entry point (payload creation plus queueing) -/

/-- Pipeline state together with the platform identifier stream cursor. -/
structure SendWorld where
  ps : PipelineState
  nextId : Nat

/-- The event record a `sendData` call builds in world `w`. -/
def submittedEvent (cfg : SendDataConfig) (sup : IdSupply) (env : PayloadEnv)
    (eventType : String) (eventData customData : Option (List (String × JsValue)))
    (w : SendWorld) : TelemetryEvent :=
  createEventPayload cfg.appVersion env (generateMessageId sup w.nextId)
    eventType eventData customData

/-- A full `sendData` call: build the payload (consuming one identifier),
then run the queue/arm logic. -/
def worldSubmit (cfg : SendDataConfig) (sup : IdSupply) (env : PayloadEnv)
    (eventType : String) (eventData customData : Option (List (String × JsValue)))
    (prio : EventPriority) (w : SendWorld) : SendWorld :=
  let event := submittedEvent cfg sup env eventType eventData customData w
  { ps := sendDataStep cfg w.ps ⟨event, prio⟩
    nextId := w.nextId + 1 }

/-! ### Consent gate (src/telemetry.ts, shouldSend / cleanupTrackingIdentifiers) -/

/-- The privacy signals `shouldSend` reads: the stored telemetry-enabled
flag (`getTelemetryEnabled()`, `null` when nothing is stored),
`safeNavigator.doNotTrack`, `safeWindow.doNotTrack` and
`navigator.globalPrivacyControl`. -/
structure PrivacyEnv where
  storedTelemetryEnabled : Option Bool
  navigatorDoNotTrack : Option String
  windowDoNotTrack : Option String
  globalPrivacyControl : Option Bool

/-- The persisted tracking identifiers `cleanupTrackingIdentifiers`
touches: the `aId` key of `localStorage`, the cross-domain cookie, and
whether the cross-domain storage is operational (a supported root domain
was detected and `document` exists, the guard of `cleanupCookie`). -/
structure TrackingIds where
  localStorageAId : Option String
  crossDomainCookie : Option String
  crossDomainSupported : Bool

/-- `cleanupTrackingIdentifiers`: remove the `aId` localStorage entry when
present (truthy), then `cleanupCookie` expires the cross-domain cookie when
the domain is supported. -/
def cleanupTrackingIdentifiers (ids : TrackingIds) : TrackingIds :=
  let ids1 :=
    if truthyOptStr ids.localStorageAId then { ids with localStorageAId := none }
    else ids
  if ids1.crossDomainSupported then { ids1 with crossDomainCookie := none }
  else ids1

/-- `shouldSend()`: the stored user setting is consulted first, then the
DNT / GPC signals; both suppression branches clean up the tracking
identifiers as a side effect. -/
def shouldSend (penv : PrivacyEnv) (ids : TrackingIds) : Bool × TrackingIds :=
  if penv.storedTelemetryEnabled == some false then
    (false, cleanupTrackingIdentifiers ids)
  else
    let dnt := jsOrStr penv.navigatorDoNotTrack penv.windowDoNotTrack
    let baseShouldSend :=
      !(dnt == some "1" || dnt == some "yes" ||
        penv.globalPrivacyControl == some true)
    if !baseShouldSend then (false, cleanupTrackingIdentifiers ids)
    else (true, ids)

/-- The shape shared by every public send operation returned by
`createTelemetry` (`sendPageView`, `sendClicks`, `sendForms`,
`sendModalView`, `sendCustomEvent`): consult `shouldSend` and return
without touching the pipeline when it is false, otherwise run the
operation body (`proceed` stands for the respective `eventSender` call or
the direct `sendData` call). -/
def publicSendOp (penv : PrivacyEnv) (proceed : PipelineState → PipelineState)
    (ps : PipelineState) (ids : TrackingIds) : PipelineState × TrackingIds :=
  let gate := shouldSend penv ids
  if gate.1 then (proceed ps, gate.2) else (ps, gate.2)

/-! ### Initialization of the stored telemetry-enabled flag
(src/config/defaultConfig.ts, src/config/utils.ts, src/telemetry.ts and
src/utils/browserAPI.ts) -/

/-- `defaultConfig.telemetryEnabled` from src/config/defaultConfig.ts. -/
def defaultTelemetryEnabled : Option Bool := some true

/-- The `telemetryEnabled` component of `createConfig`'s object spread
`\x7b ...defaultConfig, ...userConfig \x7d`: when the user config has the
key (outer `some`), its value wins even when it is `undefined` (inner
`none`); when the key is absent the default survives. -/
def mergedTelemetryEnabled (userValue : Option (Option Bool)) : Option Bool :=
  match userValue with
  | none => defaultTelemetryEnabled
  | some v => v

/-- The telemetry-enabled initialization block of `createTelemetry`
(src/telemetry.ts): a defined merged config value is stored; otherwise the
stored value is kept, and only when storage holds nothing is `false`
stored. -/
def initStoredTelemetryEnabled (configValue : Option Bool)
    (stored : Option Bool) : Option Bool :=
  match configValue with
  | some b => some b
  | none =>
    match stored with
    | some s => some s
    | none => some false

/-- `setTelemetryEnabled` of the public API: overwrite the stored flag. -/
def setTelemetryEnabledOp (enabled : Bool) (_stored : Option Bool) :
    Option Bool := some enabled

/-! ### The destroy path (src/telemetry.ts, createTelemetry / destroy)

`createTelemetry` hands `createSendData` a fresh object literal that copies
`state.batchTimeout` and `state.retryCount` but shares the `state.eventQueue`
array by reference.  The model therefore keeps the two `batchTimeout`
handle fields and the two `retryCount` fields separate, and models the
queue arrays as a small heap of arrays addressed by reference, so that the
`state.eventQueue = []` reassignments in `destroy` are distinguished from
in-place mutation. -/

structure DestroyWorld where
  heap : List (List QueuedEvent)
  teleQueueRef : Nat
  sendQueueRef : Nat
  teleBatchTimeout : Option Nat
  sendBatchTimeout : Option Nat
  debounceTimerArmed : Bool
  sendRetryCount : Nat
  beaconCalls : List (List TelemetryEvent)
  fetchCalls : List (List TelemetryEvent)
deriving Repr

def heapGet (h : List (List QueuedEvent)) (r : Nat) : List QueuedEvent :=
  (h[r]?).getD []

def heapSet (h : List (List QueuedEvent)) (r : Nat)
    (q : List QueuedEvent) : List (List QueuedEvent) :=
  h.set r q

/-- The state right after `createTelemetry` wires up `createSendData`: one
shared queue array, both handle fields `null`, retry count zero. -/
def initialDestroyWorld : DestroyWorld :=
  { heap := [[]]
    teleQueueRef := 0
    sendQueueRef := 0
    teleBatchTimeout := none
    sendBatchTimeout := none
    debounceTimerArmed := false
    sendRetryCount := 0
    beaconCalls := []
    fetchCalls := [] }

/-- A `sendData` call in the two-state wiring: push onto the array the
sendData closure references, and arm the debounce timer when the closure's
own `batchTimeout` copy is `null` and its own `retryCount` copy is zero.
The handle is stored in the closure's state only; the telemetry `state`
record never learns about it. -/
def dwSubmit (w : DestroyWorld) (qe : QueuedEvent) : DestroyWorld :=
  let w1 :=
    { w with
        heap := heapSet w.heap w.sendQueueRef
          (heapGet w.heap w.sendQueueRef ++ [qe]) }
  if w1.sendBatchTimeout == none && w1.sendRetryCount == 0 then
    { w1 with sendBatchTimeout := some 1, debounceTimerArmed := true }
  else w1

/-- `destroy()` from src/telemetry.ts: clear the timer whose handle the
telemetry `state` record holds (it holds none), then flush the queue the
telemetry `state` record references, preferring `navigator.sendBeacon` and
falling back to `fetchWithHeaders`; the reassignments `state.eventQueue = []`
give the telemetry record a fresh empty array. -/
def dwDestroy (w : DestroyWorld) (beaconAvailable beaconSucceeds : Bool) :
    DestroyWorld :=
  let w1 :=
    match w.teleBatchTimeout with
    | some _ => { w with debounceTimerArmed := false }
    | none => w
  let q := heapGet w1.heap w1.teleQueueRef
  if q.isEmpty then w1
  else
    let body := q.map (·.event)
    let w2 :=
      if beaconAvailable then
        let wb := { w1 with beaconCalls := w1.beaconCalls ++ [body] }
        if beaconSucceeds then
          { wb with heap := wb.heap ++ [[]], teleQueueRef := wb.heap.length }
        else wb
      else w1
    if (heapGet w2.heap w2.teleQueueRef).isEmpty then w2
    else
      let w3 := { w2 with fetchCalls := w2.fetchCalls ++ [body] }
      { w3 with heap := w3.heap ++ [[]], teleQueueRef := w3.heap.length }

/-- The debounce timer armed by `sendData` fires (if it was never
cancelled): the closure clears its own handle and `sendBatch()` splices the
array the closure references and posts the spliced events. -/
def dwDebounceFire (w : DestroyWorld) : Option DestroyWorld :=
  if w.debounceTimerArmed then
    let w1 := { w with debounceTimerArmed := false, sendBatchTimeout := none }
    let spliced := heapGet w1.heap w1.sendQueueRef
    let w2 := { w1 with heap := heapSet w1.heap w1.sendQueueRef [] }
    if spliced.isEmpty then some w2
    else some { w2 with fetchCalls := w2.fetchCalls ++ [spliced.map (·.event)] }
  else none

/-! ### Concrete fixtures used by witnesses and counterexamples -/

def emptyContext : EventContext :=
  { campaign := ⟨"", "", "", "", ""⟩
    library := ⟨"proton-telemetry", "web@1.0.0"⟩
    browserLocale := ""
    page := ⟨"", "", "", "", "", []⟩
    referrer := ⟨"", "", ""⟩
    screen := ⟨0, 0, 1⟩
    timezone := ""
    userAgent := ""
    features := .obj [] }

def mkTestEvent (mid : String) : TelemetryEvent :=
  { aId := "test-aid"
    messageId := mid
    clientEventTimestampUtc := "2026-01-01T00:00:00.000+00:00"
    clientEventTimestampLocal := "2026-01-01T00:00:00.000+00:00"
    eventType := "custom_event"
    context := emptyContext
    properties := [] }

def evA : TelemetryEvent := mkTestEvent "uuid-a"

def evB : TelemetryEvent := mkTestEvent "uuid-b"

def evC : TelemetryEvent := mkTestEvent "uuid-c"

def cexCfg : SendDataConfig :=
  { debug := false
    dryRun := false
    endpoint := "https://telemetry.proton.me/api"
    appVersion := "web@1.0.0"
    uidHeader := none }

def cexConsts : Constants := { BATCH_DELAY := 100, MAX_RETRIES := 3 }

def witnessSupply : IdSupply := ⟨fun k => String.mk (List.replicate k 'x')⟩

def witnessEnv : PayloadEnv :=
  { aId := "test-aid"
    userLanguage := "en"
    userTimezone := "UTC+00:00"
    nowIso := "2026-01-01T00:00:00.000Z"
    shiftedIso := "2026-01-01T00:00:00.000Z"
    tzOffsetMinutes := 0
    locationHref := "https://proton.me/"
    locationPathname := "/"
    locationSearch := ""
    searchParams := []
    documentTitle := ""
    documentReferrer := ""
    screenWidth := 1920
    screenHeight := 1080
    densityFixed2 := 1
    userAgent := "test-agent" }

/-- The spec's retryability classification, stated on an outcome: a 429 or
503 status whose Retry-After header parses to an integer number of seconds
at least zero, while the retry count is below the maximum. -/
def RetryCondition (C : Constants) (st : PipelineState) :
    FetchOutcome → Prop
  | .response status retryAfter =>
      (status = 429 ∨ status = 503) ∧
      (∃ h n, retryAfter = some h ∧ jsParseInt10 h = some n ∧ 0 ≤ n) ∧
      st.retryCount < C.MAX_RETRIES
  | .networkError => False

/-- A 2xx outcome. -/
def ResponseOkOutcome : FetchOutcome → Prop
  | .response status _ => responseOk status = true
  | .networkError => False

/-! ### Counterexample trace (an interleaving reachable from the initial
state): a first batch's fetch is in flight when a new submit arms a second
debounce timer; the first fetch then resolves retryable. -/

def cexS1 : PipelineState :=
  sendDataStep cexCfg initialPipelineState ⟨evA, .high⟩

def cexS2 : PipelineState :=
  ((debounceFireStep cexS1).getD (initialPipelineState, none)).1

def cexS3 : PipelineState := sendDataStep cexCfg cexS2 ⟨evB, .high⟩

def cexS4 : PipelineState :=
  ((fetchResolveStep cexConsts cexS3 0
      (.response 429 (some "1"))).getD (initialPipelineState, false)).1

def cexS5 : PipelineState :=
  ((debounceFireStep cexS4).getD (initialPipelineState, none)).1

def cexS6 : PipelineState :=
  ((fetchResolveStep cexConsts cexS5 0
      (.response 200 none)).getD (initialPipelineState, false)).1

/-! ### Theorems -/

lemma sendDataStep_armed (cfg : SendDataConfig) (st : PipelineState)
    (qe : QueuedEvent) (hdry : cfg.dryRun = false)
    (harm : st.batchTimeoutArmed = true) :
    sendDataStep cfg st qe = { st with eventQueue := st.eventQueue ++ [qe] } := by
  simp [sendDataStep, hdry, harm]

lemma jsParseInt10_ne_empty {h : String} {n : Int}
    (hp : jsParseInt10 h = some n) : h ≠ "" := by
  intro he
  rw [he] at hp
  exact Option.noConfusion ((rfl : jsParseInt10 "" = none) ▸ hp)

lemma handleFetchOutcome_networkError (C : Constants) (st : PipelineState)
    (f : PendingFetch) :
    handleFetchOutcome C st f .networkError =
      ({ st with retryCount := 0 }, false) := rfl

lemma handleFetchOutcome_ok (C : Constants) (st : PipelineState)
    (f : PendingFetch) (status : Nat) (ra : Option String)
    (hok : responseOk status = true) :
    handleFetchOutcome C st f (.response status ra) =
      (if f.isRetryAttempt then { st with retryCount := 0 } else st, true) := by
  simp [handleFetchOutcome, hok]

lemma handleFetchOutcome_notRetryable (C : Constants) (st : PipelineState)
    (f : PendingFetch) (status : Nat) (ra : Option String)
    (hok : responseOk status = false)
    (hcr : ((status == 429 || status == 503) && truthyOptStr ra) = false) :
    handleFetchOutcome C st f (.response status ra) =
      ({ st with retryCount := 0 }, false) := by
  simp [handleFetchOutcome, hok, hcr]

lemma handleFetchOutcome_badDelay (C : Constants) (st : PipelineState)
    (f : PendingFetch) (status : Nat) (ra : Option String)
    (hok : responseOk status = false)
    (hcr : ((status == 429 || status == 503) && truthyOptStr ra) = true)
    (hd : retryDelayMs ra = none) :
    handleFetchOutcome C st f (.response status ra) =
      ({ st with retryCount := 0 }, false) := by
  simp [handleFetchOutcome, hok, hcr, hd]

lemma handleFetchOutcome_retry (C : Constants) (st : PipelineState)
    (f : PendingFetch) (status : Nat) (ra : Option String) (d : Nat)
    (hok : responseOk status = false)
    (hcr : ((status == 429 || status == 503) && truthyOptStr ra) = true)
    (hd : retryDelayMs ra = some d)
    (hr : st.retryCount < C.MAX_RETRIES) :
    handleFetchOutcome C st f (.response status ra) =
      ({ st with
          retryCount := st.retryCount + 1
          pendingRetryTimers := st.pendingRetryTimers ++ [⟨d, f.batch⟩] },
        false) := by
  simp [handleFetchOutcome, hok, hcr, hd, hr]

lemma handleFetchOutcome_maxed (C : Constants) (st : PipelineState)
    (f : PendingFetch) (status : Nat) (ra : Option String) (d : Nat)
    (hok : responseOk status = false)
    (hcr : ((status == 429 || status == 503) && truthyOptStr ra) = true)
    (hd : retryDelayMs ra = some d)
    (hr : ¬ st.retryCount < C.MAX_RETRIES) :
    handleFetchOutcome C st f (.response status ra) =
      ({ st with retryCount := 0 }, false) := by
  simp [handleFetchOutcome, hok, hcr, hd, hr]

lemma responseOk_429 : responseOk 429 = false := rfl

lemma responseOk_503 : responseOk 503 = false := rfl

lemma retryDelay_exists_iff (ra : Option String) :
    (∃ h n, ra = some h ∧ jsParseInt10 h = some n ∧ 0 ≤ n) ↔
      (truthyOptStr ra = true ∧ ∃ d, retryDelayMs ra = some d) := by
  constructor
  · rintro ⟨h, n, rfl, hp, hn⟩
    refine ⟨?_, ⟨n.toNat * 1000, ?_⟩⟩
    · simp [truthyOptStr, jsParseInt10_ne_empty hp]
    · simp [retryDelayMs, hp, hn]
  · rintro ⟨ht, d, hd⟩
    rcases ra with _ | h
    · exact absurd ht (by simp [truthyOptStr])
    · rcases hparse : jsParseInt10 h with _ | n
      · rw [show retryDelayMs (some h) = none by
          simp [retryDelayMs, hparse]] at hd
        exact Option.noConfusion hd
      · by_cases hn : 0 ≤ n
        · exact ⟨h, n, rfl, hparse, hn⟩
        · rw [show retryDelayMs (some h) = none by
            simp [retryDelayMs, hparse, hn]] at hd
          exact Option.noConfusion hd

lemma submitMany_armed (cfg : SendDataConfig) (hdry : cfg.dryRun = false) :
    ∀ (qes : List QueuedEvent) (st : PipelineState),
      st.batchTimeoutArmed = true →
      submitMany cfg st qes = { st with eventQueue := st.eventQueue ++ qes } := by
  intro qes
  induction qes with
  | nil => intro st harm; simp [submitMany]
  | cons q qs ih =>
    intro st harm
    have hstep : submitMany cfg st (q :: qs) =
        submitMany cfg (sendDataStep cfg st q) qs := rfl
    rw [hstep, sendDataStep_armed cfg st q hdry harm,
      ih { st with eventQueue := st.eventQueue ++ [q] } harm]
    simp

/-- C1: for every sequence of `sendData` calls made while one debounce timer
is pending and no retry is in flight, nothing is sent during the window, the
entries are appended to the queue in call order, and when the timer fires
exactly one network call is made whose batch carries the whole queue —
including all of those events, in the order the calls occurred. -/
theorem claim1_debounce_window (cfg : SendDataConfig) (st : PipelineState)
    (qes : List QueuedEvent)
    (harm : st.batchTimeoutArmed = true) (_hrc : st.retryCount = 0)
    (hdry : cfg.dryRun = false) (hne : st.eventQueue ++ qes ≠ []) :
    (submitMany cfg st qes).networkCalls = st.networkCalls ∧
    (submitMany cfg st qes).eventQueue = st.eventQueue ++ qes ∧
    (submitMany cfg st qes).batchTimeoutArmed = true ∧
    ∃ stf, debounceFireStep (submitMany cfg st qes) = some (stf, none) ∧
      stf.networkCalls =
        st.networkCalls ++ [(st.eventQueue ++ qes).map (·.event)] ∧
      stf.eventQueue = [] := by
  have h := submitMany_armed cfg hdry qes st harm
  rw [h]
  have hmapne : ((st.eventQueue ++ qes).map (·.event)).isEmpty = false := by
    rcases hq : st.eventQueue ++ qes with _ | ⟨a, l⟩
    · exact absurd hq hne
    · rfl
  refine ⟨rfl, rfl, harm, ?_⟩
  refine ⟨{ eventQueue := []
            batchTimeoutArmed := false
            retryCount := st.retryCount
            pendingFetches := st.pendingFetches ++
              [⟨(st.eventQueue ++ qes).map (·.event), false⟩]
            pendingRetryTimers := st.pendingRetryTimers
            networkCalls := st.networkCalls ++
              [(st.eventQueue ++ qes).map (·.event)] }, ?_, rfl, rfl⟩
  simp only [debounceFireStep, harm, sendBatchStart, hmapne, if_true,
    Bool.false_eq_true, if_false, Option.some.injEq, Prod.mk.injEq]
  constructor
  · rfl
  · trivial

/-- Closed instance of C1: one event already queued when the timer was
armed, one submitted during the window; the fired batch holds both in
order. -/
theorem claim1_witness :
    (submitMany cexCfg
        { initialPipelineState with
            eventQueue := [⟨evA, .high⟩], batchTimeoutArmed := true }
        [⟨evB, .high⟩]).networkCalls = [] ∧
    (submitMany cexCfg
        { initialPipelineState with
            eventQueue := [⟨evA, .high⟩], batchTimeoutArmed := true }
        [⟨evB, .high⟩]).eventQueue = [⟨evA, .high⟩, ⟨evB, .high⟩] ∧
    (submitMany cexCfg
        { initialPipelineState with
            eventQueue := [⟨evA, .high⟩], batchTimeoutArmed := true }
        [⟨evB, .high⟩]).batchTimeoutArmed = true ∧
    ∃ stf, debounceFireStep (submitMany cexCfg
        { initialPipelineState with
            eventQueue := [⟨evA, .high⟩], batchTimeoutArmed := true }
        [⟨evB, .high⟩]) = some (stf, none) ∧
      stf.networkCalls = [[evA, evB]] ∧
      stf.eventQueue = [] := by
  have h := claim1_debounce_window cexCfg
    { initialPipelineState with
        eventQueue := [⟨evA, .high⟩], batchTimeoutArmed := true }
    [⟨evB, .high⟩] rfl rfl rfl (by simp)
  simpa using h

/-- C3: a send attempt schedules a retry if and only if the status is 429
or 503, the Retry-After header parses (via `parseInt`) to an integer number
of seconds at least zero, and the retry count is below the maximum; in that
case exactly one retry of the same batch is scheduled after Retry-After
seconds and the attempt resolves false.  Every other failure — any other
non-2xx status, 429/503 with a missing or non-parsing Retry-After, or a
network-level exception — drops the batch (nothing is requeued), resets the
retry counter, schedules nothing, and resolves false. -/
theorem claim3_retry_classification (C : Constants) (st : PipelineState)
    (f : PendingFetch) (outcome : FetchOutcome) :
    (((handleFetchOutcome C st f outcome).1.pendingRetryTimers ≠
        st.pendingRetryTimers) ↔ RetryCondition C st outcome) ∧
    (∀ status h n, outcome = .response status (some h) →
      (status = 429 ∨ status = 503) → jsParseInt10 h = some n → 0 ≤ n →
      st.retryCount < C.MAX_RETRIES →
      handleFetchOutcome C st f outcome =
        ({ st with
            retryCount := st.retryCount + 1
            pendingRetryTimers :=
              st.pendingRetryTimers ++ [⟨n.toNat * 1000, f.batch⟩] },
          false)) ∧
    (¬ ResponseOkOutcome outcome → ¬ RetryCondition C st outcome →
      (handleFetchOutcome C st f outcome).1.pendingRetryTimers =
        st.pendingRetryTimers ∧
      (handleFetchOutcome C st f outcome).1.eventQueue = st.eventQueue ∧
      (handleFetchOutcome C st f outcome).1.retryCount = 0 ∧
      (handleFetchOutcome C st f outcome).2 = false) := by
  have hretry : ∀ status h n, outcome = .response status (some h) →
      (status = 429 ∨ status = 503) → jsParseInt10 h = some n → 0 ≤ n →
      st.retryCount < C.MAX_RETRIES →
      handleFetchOutcome C st f outcome =
        ({ st with
            retryCount := st.retryCount + 1
            pendingRetryTimers :=
              st.pendingRetryTimers ++ [⟨n.toNat * 1000, f.batch⟩] },
          false) := by
    rintro status h n rfl hs hp hn hr
    have hok : responseOk status = false := by
      rcases hs with rfl | rfl <;> rfl
    have hcr : ((status == 429 || status == 503) &&
        truthyOptStr (some h)) = true := by
      rcases hs with rfl | rfl <;>
        simp [truthyOptStr, jsParseInt10_ne_empty hp]
    have hd : retryDelayMs (some h) = some (n.toNat * 1000) := by
      simp [retryDelayMs, hp, hn]
    rw [handleFetchOutcome_retry C st f status (some h) (n.toNat * 1000)
      hok hcr hd hr]
  have hterm : ¬ ResponseOkOutcome outcome → ¬ RetryCondition C st outcome →
      handleFetchOutcome C st f outcome = ({ st with retryCount := 0 }, false) := by
    intro hnok hnrc
    rcases outcome with ⟨status, ra⟩ | _
    · have hok : responseOk status = false := by
        rcases hb : responseOk status with _ | _
        · rfl
        · exact absurd (by simpa [ResponseOkOutcome] using hb) hnok
      by_cases hcr : ((status == 429 || status == 503) &&
          truthyOptStr ra) = true
      · rcases hdc : retryDelayMs ra with _ | d
        · exact handleFetchOutcome_badDelay C st f status ra hok hcr hdc
        · by_cases hr : st.retryCount < C.MAX_RETRIES
          · exfalso
            apply hnrc
            have hcr' := hcr
            simp only [Bool.and_eq_true, Bool.or_eq_true, beq_iff_eq] at hcr'
            have hstat : status = 429 ∨ status = 503 := hcr'.1
            have htr : truthyOptStr ra = true := hcr'.2
            have hex : ∃ h n, ra = some h ∧ jsParseInt10 h = some n ∧ 0 ≤ n :=
              (retryDelay_exists_iff ra).mpr ⟨htr, d, hdc⟩
            exact ⟨hstat, hex, hr⟩
          · exact handleFetchOutcome_maxed C st f status ra d hok hcr hdc hr
      · exact handleFetchOutcome_notRetryable C st f status ra hok
          (Bool.not_eq_true _ ▸ Bool.of_not_eq_true hcr)
    · exact handleFetchOutcome_networkError C st f
  refine ⟨?_, hretry, ?_⟩
  · constructor
    · intro hchanged
      by_contra hnrc
      by_cases hok : ResponseOkOutcome outcome
      · rcases outcome with ⟨status, ra⟩ | _
        · have h2 : responseOk status = true := hok
          rw [handleFetchOutcome_ok C st f status ra h2] at hchanged
          rcases hb : f.isRetryAttempt with _ | _ <;> rw [hb] at hchanged <;>
            exact hchanged rfl
        · exact hok
      · rw [hterm hok hnrc] at hchanged
        exact hchanged rfl
    · intro hrc
      rcases outcome with ⟨status, ra⟩ | _
      · rcases hrc with ⟨hstat, ⟨h, n, rfl, hp, hn⟩, hr⟩
        rw [hretry status h n rfl hstat hp hn hr]
        intro hEq
        have := congrArg List.length hEq
        simp at this
      · exact hrc.elim
  · intro hnok hnrc
    rw [hterm hnok hnrc]
    exact ⟨rfl, rfl, rfl, rfl⟩

/-- Closed instance of C3: a 429 with Retry-After 2 schedules one retry of
the same batch after 2000 ms and resolves false; a 500, a 429 without the
header, and a network error drop the batch, reset the counter and resolve
false. -/
theorem claim3_witness :
    (handleFetchOutcome cexConsts cexS3 ⟨[evA], false⟩
        (.response 429 (some "2")) =
      ({ cexS3 with
          retryCount := 1
          pendingRetryTimers := [⟨2000, [evA]⟩] }, false)) ∧
    ((handleFetchOutcome cexConsts cexS3 ⟨[evA], false⟩
        (.response 500 (some "2"))).1.pendingRetryTimers = [] ∧
      (handleFetchOutcome cexConsts cexS3 ⟨[evA], false⟩
        (.response 500 (some "2"))).2 = false) ∧
    ((handleFetchOutcome cexConsts cexS3 ⟨[evA], false⟩
        (.response 429 none)).1.pendingRetryTimers = [] ∧
      (handleFetchOutcome cexConsts cexS3 ⟨[evA], false⟩
        (.response 429 none)).2 = false) ∧
    ((handleFetchOutcome cexConsts cexS3 ⟨[evA], false⟩
        .networkError).1.retryCount = 0 ∧
      (handleFetchOutcome cexConsts cexS3 ⟨[evA], false⟩
        .networkError).2 = false) := by
  have h1 := (claim3_retry_classification cexConsts cexS3 ⟨[evA], false⟩
    (.response 429 (some "2"))).2.1 429 "2" 2 rfl (Or.inl rfl) (by rfl)
    (by decide) (by decide)
  have h2 := (claim3_retry_classification cexConsts cexS3 ⟨[evA], false⟩
    (.response 500 (some "2"))).2.2
    (by simp [ResponseOkOutcome, responseOk])
    (by simp [RetryCondition])
  have h3 := (claim3_retry_classification cexConsts cexS3 ⟨[evA], false⟩
    (.response 429 none)).2.2
    (by simp [ResponseOkOutcome, responseOk])
    (by simp [RetryCondition])
  have h4 := (claim3_retry_classification cexConsts cexS3 ⟨[evA], false⟩
    .networkError).2.2 (by simp [ResponseOkOutcome]) (by simp [RetryCondition])
  refine ⟨?_, ⟨?_, h2.2.2.2⟩, ⟨?_, h3.2.2.2⟩, ⟨h4.2.2.1, h4.2.2.2⟩⟩
  · rw [h1]
    rfl
  · rw [h2.1]
    rfl
  · rw [h3.1]
    rfl

/-- C8 counterexample: a reachable interleaving in which a send attempt
receives a 2xx response while the retry counter is 1, and the counter stays
1 — a first-attempt success does not reset it.  Submit A; the debounce
timer fires (fetch 1 in flight); submit B arms a second debounce timer;
fetch 1 resolves 429 with Retry-After (counter becomes 1, retry scheduled);
the second timer fires (fetch 2 in flight, a first attempt); fetch 2
resolves 200 — and the retry counter still equals 1, not 0. -/
theorem claim8_counterexample :
    cexS1 = sendDataStep cexCfg initialPipelineState ⟨evA, .high⟩ ∧
    debounceFireStep cexS1 = some (cexS2, none) ∧
    cexS3 = sendDataStep cexCfg cexS2 ⟨evB, .high⟩ ∧
    fetchResolveStep cexConsts cexS3 0 (.response 429 (some "1")) =
      some (cexS4, false) ∧
    debounceFireStep cexS4 = some (cexS5, none) ∧
    fetchResolveStep cexConsts cexS5 0 (.response 200 none) =
      some (cexS6, true) ∧
    responseOk 200 = true ∧
    cexS6.retryCount = 1 := by
  refine ⟨rfl, rfl, rfl, rfl, rfl, rfl, rfl, rfl⟩

/-- C8 amended: after a send attempt that receives a 2xx response, the
attempt resolves true and the retry counter is reset to zero when the
attempt was a retry; on a first attempt the counter is left unchanged
(so it is zero only when no other batch entered the retry chain while the
attempt was pending). -/
theorem claim8_success_reset (C : Constants) (st : PipelineState)
    (f : PendingFetch) (status : Nat) (ra : Option String)
    (hok : responseOk status = true) :
    (handleFetchOutcome C st f (.response status ra)).2 = true ∧
    (handleFetchOutcome C st f (.response status ra)).1.retryCount =
      (if f.isRetryAttempt then 0 else st.retryCount) ∧
    (handleFetchOutcome C st f (.response status ra)).1.eventQueue =
      st.eventQueue ∧
    (handleFetchOutcome C st f (.response status ra)).1.pendingRetryTimers =
      st.pendingRetryTimers := by
  rw [handleFetchOutcome_ok C st f status ra hok]
  rcases hb : f.isRetryAttempt with _ | _ <;> simp [hb]

/-- Closed instance of the amended C8: a retry attempt that receives 200
resets the counter to zero; a first attempt that receives 200 leaves the
counter at its prior value 1. -/
theorem claim8_witness :
    (handleFetchOutcome cexConsts cexS5 ⟨[evA], true⟩
        (.response 200 none)).1.retryCount = 0 ∧
    (handleFetchOutcome cexConsts cexS5 ⟨[evB], false⟩
        (.response 200 none)).1.retryCount = 1 ∧
    (handleFetchOutcome cexConsts cexS5 ⟨[evA], true⟩
        (.response 200 none)).2 = true := by
  have h1 := claim8_success_reset cexConsts cexS5 ⟨[evA], true⟩ 200 none rfl
  have h2 := claim8_success_reset cexConsts cexS5 ⟨[evB], false⟩ 200 none rfl
  refine ⟨?_, ?_, h1.1⟩
  · rw [h1.2.1]
    rfl
  · rw [h2.2.1]
    rfl

/-- C9 counterexample: a reachable state with two pipeline timers armed at
once — a debounce timer (armed by a submit that raced an in-flight first
attempt) and the retry timer scheduled when that attempt resolved
retryable. -/
theorem claim9_counterexample :
    cexS1 = sendDataStep cexCfg initialPipelineState ⟨evA, .high⟩ ∧
    debounceFireStep cexS1 = some (cexS2, none) ∧
    cexS3 = sendDataStep cexCfg cexS2 ⟨evB, .high⟩ ∧
    fetchResolveStep cexConsts cexS3 0 (.response 429 (some "1")) =
      some (cexS4, false) ∧
    cexS4.batchTimeoutArmed = true ∧
    cexS4.pendingRetryTimers.length = 1 := by
  refine ⟨rfl, rfl, rfl, rfl, rfl, rfl⟩

/-- C9 amended: while a retried batch has not resolved (the retry counter
is nonzero), a submit call never arms a new debounce timer and never
touches the armed retry timers or the in-flight calls; the entry is only
appended to the queue.  (The "at most one timer in every reachable state"
half of the original claim fails, see the counterexample.) -/
theorem claim9_no_new_timer_while_retrying (cfg : SendDataConfig)
    (st : PipelineState) (qe : QueuedEvent)
    (hrc : st.retryCount ≠ 0) (hdry : cfg.dryRun = false) :
    (sendDataStep cfg st qe).batchTimeoutArmed = st.batchTimeoutArmed ∧
    (sendDataStep cfg st qe).pendingRetryTimers = st.pendingRetryTimers ∧
    (sendDataStep cfg st qe).pendingFetches = st.pendingFetches ∧
    (sendDataStep cfg st qe).eventQueue = st.eventQueue ++ [qe] := by
  simp [sendDataStep, hdry, hrc]

/-- Closed instance of the amended C9: submitting while the counter is 1
(state of the counterexample trace after the retryable response, with its
debounce flag cleared) arms nothing. -/
theorem claim9_witness :
    (sendDataStep cexCfg { cexS4 with batchTimeoutArmed := false }
        ⟨evC, .high⟩).batchTimeoutArmed = false ∧
    (sendDataStep cexCfg { cexS4 with batchTimeoutArmed := false }
        ⟨evC, .high⟩).pendingRetryTimers = cexS4.pendingRetryTimers := by
  have h := claim9_no_new_timer_while_retrying cexCfg
    { cexS4 with batchTimeoutArmed := false } ⟨evC, .high⟩
    (by decide) rfl
  exact ⟨h.1, h.2.1⟩

lemma chainRound_retryable_lt (C : Constants) (status : Nat) (hh : String)
    (n : Int) (hs : status = 429 ∨ status = 503)
    (hp : jsParseInt10 hh = some n) (hn : 0 ≤ n)
    (q : List QueuedEvent) (bt : Bool) (rc : Nat) (b : List TelemetryEvent)
    (ir : Bool) (nc : List (List TelemetryEvent))
    (hb : b ≠ []) (hr : rc < C.MAX_RETRIES) :
    chainRound C (.response status (some hh)) ⟨q, bt, rc, [⟨b, ir⟩], [], nc⟩ =
      ⟨q, bt, rc + 1, [⟨b, true⟩], [], nc ++ [b]⟩ := by
  have hok : responseOk status = false := by rcases hs with rfl | rfl <;> rfl
  have hcr : ((status == 429 || status == 503) &&
      truthyOptStr (some hh)) = true := by
    rcases hs with rfl | rfl <;> simp [truthyOptStr, jsParseInt10_ne_empty hp]
  have hd : retryDelayMs (some hh) = some (n.toNat * 1000) := by
    simp [retryDelayMs, hp, hn]
  have hbe : b.isEmpty = false := by
    rcases b with _ | ⟨x, xs⟩
    · exact absurd rfl hb
    · rfl
  simp [chainRound, fetchResolveStep, retryFireStep, sendBatchStart,
    handleFetchOutcome, hok, hcr, hd, hr, hbe]

lemma chainRound_retryable_max (C : Constants) (status : Nat) (hh : String)
    (n : Int) (hs : status = 429 ∨ status = 503)
    (hp : jsParseInt10 hh = some n) (hn : 0 ≤ n)
    (q : List QueuedEvent) (bt : Bool) (rc : Nat) (b : List TelemetryEvent)
    (ir : Bool) (nc : List (List TelemetryEvent))
    (hr : ¬ rc < C.MAX_RETRIES) :
    chainRound C (.response status (some hh)) ⟨q, bt, rc, [⟨b, ir⟩], [], nc⟩ =
      ⟨q, bt, 0, [], [], nc⟩ := by
  have hok : responseOk status = false := by rcases hs with rfl | rfl <;> rfl
  have hcr : ((status == 429 || status == 503) &&
      truthyOptStr (some hh)) = true := by
    rcases hs with rfl | rfl <;> simp [truthyOptStr, jsParseInt10_ne_empty hp]
  have hd : retryDelayMs (some hh) = some (n.toNat * 1000) := by
    simp [retryDelayMs, hp, hn]
  simp [chainRound, fetchResolveStep, retryFireStep, handleFetchOutcome,
    hok, hcr, hd, hr]

lemma chainRound_noFetch (C : Constants) (outcome : FetchOutcome)
    (st : PipelineState) (hf : st.pendingFetches = []) :
    chainRound C outcome st = st := by
  simp [chainRound, fetchResolveStep, hf]

lemma chain_iterate (C : Constants) (status : Nat) (hh : String) (n : Int)
    (hs : status = 429 ∨ status = 503) (hp : jsParseInt10 hh = some n)
    (hn : 0 ≤ n) (b : List TelemetryEvent) (hb : b ≠ []) :
    ∀ (k : Nat) (q : List QueuedEvent) (bt : Bool) (rc : Nat)
      (nc : List (List TelemetryEvent)) (ir : Bool),
      rc + k = C.MAX_RETRIES →
      ∃ ir2, Nat.iterate (chainRound C (.response status (some hh))) k
          ⟨q, bt, rc, [⟨b, ir⟩], [], nc⟩ =
        ⟨q, bt, C.MAX_RETRIES, [⟨b, ir2⟩], [],
          nc ++ List.replicate k b⟩ := by
  intro k
  induction k with
  | zero =>
    intro q bt rc nc ir hk
    refine ⟨ir, ?_⟩
    have : rc = C.MAX_RETRIES := by omega
    subst this
    simp
  | succ k ih =>
    intro q bt rc nc ir hk
    have hr : rc < C.MAX_RETRIES := by omega
    have hstep := chainRound_retryable_lt C status hh n hs hp hn
      q bt rc b ir nc hb hr
    rw [Function.iterate_succ_apply, hstep]
    obtain ⟨ir2, h2⟩ := ih q bt (rc + 1) (nc ++ [b]) true (by omega)
    refine ⟨ir2, ?_⟩
    rw [h2]
    simp [List.replicate_succ]

/-- C4: starting a batch chain at retry count zero, if the server answers
every attempt with a retryable outcome (429/503 plus a parsing Retry-After),
the batch is resent exactly MAX_RETRIES times and then dropped: afterwards
the retry counter is zero, no call or timer for that batch remains pending,
nothing is requeued, and a further chain round makes no further network
call. -/
theorem claim4_bounded_retries (C : Constants) (status : Nat) (hh : String)
    (n : Int) (q : List QueuedEvent) (bt : Bool) (b : List TelemetryEvent)
    (ir : Bool) (nc : List (List TelemetryEvent))
    (hs : status = 429 ∨ status = 503) (hp : jsParseInt10 hh = some n)
    (hn : 0 ≤ n) (hb : b ≠ []) :
    (Nat.iterate (chainRound C (.response status (some hh)))
        (C.MAX_RETRIES + 1) ⟨q, bt, 0, [⟨b, ir⟩], [], nc⟩).networkCalls =
      nc ++ List.replicate C.MAX_RETRIES b ∧
    (Nat.iterate (chainRound C (.response status (some hh)))
        (C.MAX_RETRIES + 1) ⟨q, bt, 0, [⟨b, ir⟩], [], nc⟩).retryCount = 0 ∧
    (Nat.iterate (chainRound C (.response status (some hh)))
        (C.MAX_RETRIES + 1) ⟨q, bt, 0, [⟨b, ir⟩], [], nc⟩).pendingFetches =
      [] ∧
    (Nat.iterate (chainRound C (.response status (some hh)))
        (C.MAX_RETRIES + 1)
        ⟨q, bt, 0, [⟨b, ir⟩], [], nc⟩).pendingRetryTimers = [] ∧
    (Nat.iterate (chainRound C (.response status (some hh)))
        (C.MAX_RETRIES + 1) ⟨q, bt, 0, [⟨b, ir⟩], [], nc⟩).eventQueue = q ∧
    chainRound C (.response status (some hh))
        (Nat.iterate (chainRound C (.response status (some hh)))
          (C.MAX_RETRIES + 1) ⟨q, bt, 0, [⟨b, ir⟩], [], nc⟩) =
      Nat.iterate (chainRound C (.response status (some hh)))
        (C.MAX_RETRIES + 1) ⟨q, bt, 0, [⟨b, ir⟩], [], nc⟩ := by
  obtain ⟨ir2, hiter⟩ := chain_iterate C status hh n hs hp hn b hb
    C.MAX_RETRIES q bt 0 nc ir (by omega)
  have hlast := chainRound_retryable_max C status hh n hs hp hn
    q bt C.MAX_RETRIES b ir2 (nc ++ List.replicate C.MAX_RETRIES b)
    (by omega)
  have hfinal : Nat.iterate (chainRound C (.response status (some hh)))
      (C.MAX_RETRIES + 1) ⟨q, bt, 0, [⟨b, ir⟩], [], nc⟩ =
      ⟨q, bt, 0, [], [], nc ++ List.replicate C.MAX_RETRIES b⟩ := by
    rw [Function.iterate_succ_apply', hiter, hlast]
  rw [hfinal]
  refine ⟨rfl, rfl, rfl, rfl, rfl, ?_⟩
  exact chainRound_noFetch C _ _ rfl

/-- Closed instance of C4 with MAX_RETRIES = 3: the batch [evA] is sent 4
times in total (1 first attempt recorded beforehand in the call log plus 3
retries), then dropped with the counter reset. -/
theorem claim4_witness :
    (Nat.iterate (chainRound cexConsts (.response 429 (some "1")))
        (cexConsts.MAX_RETRIES + 1)
        ⟨[], false, 0, [⟨[evA], false⟩], [], [[evA]]⟩).networkCalls =
      [[evA], [evA], [evA], [evA]] ∧
    (Nat.iterate (chainRound cexConsts (.response 429 (some "1")))
        (cexConsts.MAX_RETRIES + 1)
        ⟨[], false, 0, [⟨[evA], false⟩], [], [[evA]]⟩).retryCount = 0 ∧
    (Nat.iterate (chainRound cexConsts (.response 429 (some "1")))
        (cexConsts.MAX_RETRIES + 1)
        ⟨[], false, 0, [⟨[evA], false⟩], [], [[evA]]⟩).pendingFetches =
      [] := by
  have h := claim4_bounded_retries cexConsts 429 "1" 1 [] false [evA] false
    [[evA]] (Or.inl rfl) (by rfl) (by decide) (by simp)
  refine ⟨?_, h.2.1, h.2.2.1⟩
  rw [h.1]
  rfl

lemma witnessSupply_injective : Function.Injective witnessSupply.ids := by
  intro a b hab
  have h2 : List.replicate a 'x' = List.replicate b 'x' := by
    have := congrArg String.data hab
    simpa [witnessSupply] using this
  have := congrArg List.length h2
  simpa using this

/-- C2: a retryable classification schedules a retry carrying exactly the
batch of the attempt (same event records, hence the same message
identifiers); the retry timer firing resends exactly that frozen batch; a
`sendData` call made during the retry window never modifies any armed retry
timer or in-flight call; and a freshly submitted event draws the next
identifier from the supply, which (for an injective supply) differs from
every previously generated identifier. -/
theorem claim2_retry_identity (C : Constants) (cfg : SendDataConfig)
    (sup : IdSupply) (env : PayloadEnv) (eventType : String)
    (eventData customData : Option (List (String × JsValue)))
    (prio : EventPriority) (w : SendWorld)
    (hinj : Function.Injective sup.ids) :
    (∀ (st : PipelineState) (f : PendingFetch) (status : Nat) (hh : String)
        (n : Int), (status = 429 ∨ status = 503) →
      jsParseInt10 hh = some n → 0 ≤ n →
      st.retryCount < C.MAX_RETRIES →
      (handleFetchOutcome C st f
          (.response status (some hh))).1.pendingRetryTimers =
        st.pendingRetryTimers ++ [⟨n.toNat * 1000, f.batch⟩]) ∧
    (∀ (d : Nat) (bb : List TelemetryEvent) (rest : List PendingRetry)
        (q : List QueuedEvent) (bt : Bool) (rc : Nat)
        (pf : List PendingFetch) (nc : List (List TelemetryEvent)),
      bb ≠ [] →
      retryFireStep ⟨q, bt, rc, pf, ⟨d, bb⟩ :: rest, nc⟩ 0 =
        some (⟨q, bt, rc, pf ++ [⟨bb, true⟩], rest, nc ++ [bb]⟩, none)) ∧
    ((worldSubmit cfg sup env eventType eventData customData prio
        w).ps.pendingRetryTimers = w.ps.pendingRetryTimers ∧
      (worldSubmit cfg sup env eventType eventData customData prio
        w).ps.pendingFetches = w.ps.pendingFetches) ∧
    ((worldSubmit cfg sup env eventType eventData customData prio
        w).nextId = w.nextId + 1 ∧
      (submittedEvent cfg sup env eventType eventData customData
        w).messageId = generateMessageId sup w.nextId ∧
      generateMessageId sup w.nextId ∉
        (List.range w.nextId).map sup.ids) := by
  refine ⟨?_, ?_, ?_, rfl, rfl, ?_⟩
  · intro st f status hh n hs hp hn hr
    have hok : responseOk status = false := by rcases hs with rfl | rfl <;> rfl
    have hcr : ((status == 429 || status == 503) &&
        truthyOptStr (some hh)) = true := by
      rcases hs with rfl | rfl <;>
        simp [truthyOptStr, jsParseInt10_ne_empty hp]
    have hd : retryDelayMs (some hh) = some (n.toNat * 1000) := by
      simp [retryDelayMs, hp, hn]
    rw [handleFetchOutcome_retry C st f status (some hh) (n.toNat * 1000)
      hok hcr hd hr]
  · intro d bb rest q bt rc pf nc hbb
    have hbe : bb.isEmpty = false := by
      rcases bb with _ | ⟨x, xs⟩
      · exact absurd rfl hbb
      · rfl
    simp [retryFireStep, sendBatchStart, hbe]
  · unfold worldSubmit sendDataStep
    rcases hdr : cfg.dryRun with _ | _
    · simp only [hdr, if_false, Bool.false_eq_true]
      split <;> exact ⟨rfl, rfl⟩
    · simp [hdr]
  · intro hmem
    simp only [List.mem_map, List.mem_range] at hmem
    obtain ⟨j, hj, hje⟩ := hmem
    have := hinj hje
    omega

/-- Closed instance of C2: a 503 with Retry-After 2 at retry count 1
schedules the same frozen batch after 2000 ms; firing the retry resends
exactly it; a racing submit leaves the timers untouched; and the sixth
identifier of the witness supply differs from the five before it. -/
theorem claim2_witness :
    ((handleFetchOutcome cexConsts cexS4 ⟨[evA], true⟩
        (.response 503 (some "2"))).1.pendingRetryTimers =
      cexS4.pendingRetryTimers ++ [⟨2000, [evA]⟩]) ∧
    (retryFireStep ⟨[], false, 1, [], [⟨1000, [evA]⟩], []⟩ 0 =
      some (⟨[], false, 1, [⟨[evA], true⟩], [], [[evA]]⟩, none)) ∧
    ((worldSubmit cexCfg witnessSupply witnessEnv "custom_event" none none
        .high ⟨cexS4, 5⟩).ps.pendingRetryTimers =
      cexS4.pendingRetryTimers) ∧
    (generateMessageId witnessSupply 5 ∉
      (List.range 5).map witnessSupply.ids) := by
  have h := claim2_retry_identity cexConsts cexCfg witnessSupply witnessEnv
    "custom_event" none none .high ⟨cexS4, 5⟩ witnessSupply_injective
  refine ⟨?_, ?_, h.2.2.1.1, h.2.2.2.2.2⟩
  · have := h.1 cexS4 ⟨[evA], true⟩ 503 "2" 2 (Or.inr rfl) (by rfl)
      (by decide) (by decide)
    rw [this]
    rfl
  · exact h.2.1 1000 [evA] [] [] false 1 [] [] (by simp)

/-- C5: the queue is emptied at the moment the batch is detached — before
the network call resolves, not on success: detaching captures the whole
queue into the in-flight call and leaves the queue empty while the call is
still pending; a 2xx arriving later finds (and leaves) the queue it gets; a
submit racing the in-flight call modifies no captured batch and lands in
the next generation queue; and the submitted entry is never contained in
the batch already captured. -/
theorem claim5_detach_before_send (cfg : SendDataConfig) (sup : IdSupply)
    (env : PayloadEnv) (eventType : String)
    (eventData customData : Option (List (String × JsValue)))
    (prio : EventPriority) (w : SendWorld) (C : Constants) (f : PendingFetch)
    (hne : w.ps.eventQueue ≠ []) (hdry : cfg.dryRun = false)
    (hinj : Function.Injective sup.ids)
    (hprov : ∀ e ∈ w.ps.eventQueue, ∃ j, j < w.nextId ∧
      e.event.messageId = sup.ids j) :
    ((sendBatchStart w.ps none).1.eventQueue = []) ∧
    ((sendBatchStart w.ps none).1.pendingFetches =
      w.ps.pendingFetches ++ [⟨w.ps.eventQueue.map (·.event), false⟩]) ∧
    ((sendBatchStart w.ps none).2 = none) ∧
    (∀ status ra, responseOk status = true →
      (handleFetchOutcome C (sendBatchStart w.ps none).1 f
          (.response status ra)).1.eventQueue = []) ∧
    ((worldSubmit cfg sup env eventType eventData customData prio
        ⟨(sendBatchStart w.ps none).1, w.nextId⟩).ps.pendingFetches =
      (sendBatchStart w.ps none).1.pendingFetches) ∧
    ((worldSubmit cfg sup env eventType eventData customData prio
        ⟨(sendBatchStart w.ps none).1, w.nextId⟩).ps.eventQueue =
      [⟨submittedEvent cfg sup env eventType eventData customData
          ⟨(sendBatchStart w.ps none).1, w.nextId⟩, prio⟩]) ∧
    (submittedEvent cfg sup env eventType eventData customData
        ⟨(sendBatchStart w.ps none).1, w.nextId⟩ ∉
      w.ps.eventQueue.map (·.event)) := by
  have hmapne : (w.ps.eventQueue.map (·.event)).isEmpty = false := by
    rcases hq : w.ps.eventQueue with _ | ⟨a, l⟩
    · exact absurd hq hne
    · rfl
  have hdetach : sendBatchStart w.ps none =
      ({ w.ps with
          eventQueue := []
          pendingFetches :=
            w.ps.pendingFetches ++ [⟨w.ps.eventQueue.map (·.event), false⟩]
          networkCalls :=
            w.ps.networkCalls ++ [w.ps.eventQueue.map (·.event)] },
        none) := by
    simp [sendBatchStart, hmapne]
  rw [hdetach]
  refine ⟨rfl, rfl, rfl, ?_, ?_, ?_, ?_⟩
  · intro status ra hok
    rw [handleFetchOutcome_ok C _ f status ra hok]
    rcases hb : f.isRetryAttempt with _ | _ <;> simp [hb]
  · unfold worldSubmit sendDataStep
    simp only [hdry, if_false, Bool.false_eq_true]
    split <;> rfl
  · unfold worldSubmit sendDataStep
    simp only [hdry, if_false, Bool.false_eq_true]
    split <;> rfl
  · intro hmem
    simp only [List.mem_map] at hmem
    obtain ⟨qe, hqe, hqee⟩ := hmem
    obtain ⟨j, hj, hjid⟩ := hprov qe hqe
    have hmid : qe.event.messageId = sup.ids w.nextId := by
      rw [hqee]
      rfl
    rw [hjid] at hmid
    have := hinj hmid
    omega

/-- Closed instance of C5: one queued entry (stamped with the first supply
identifier) is detached; a racing submit (which draws the second
identifier) lands alone in the new queue and is not in the captured
batch. -/
theorem claim5_witness :
    ((sendBatchStart
        { initialPipelineState with
            eventQueue := [⟨mkTestEvent (witnessSupply.ids 0), .high⟩]
            batchTimeoutArmed := false } none).1.eventQueue = []) ∧
    ((worldSubmit cexCfg witnessSupply witnessEnv "custom_event" none none
        .high
        ⟨(sendBatchStart
            { initialPipelineState with
                eventQueue := [⟨mkTestEvent (witnessSupply.ids 0), .high⟩]
                batchTimeoutArmed := false } none).1, 1⟩).ps.eventQueue =
      [⟨submittedEvent cexCfg witnessSupply witnessEnv "custom_event" none
          none
          ⟨(sendBatchStart
              { initialPipelineState with
                  eventQueue := [⟨mkTestEvent (witnessSupply.ids 0), .high⟩]
                  batchTimeoutArmed := false } none).1, 1⟩, .high⟩]) ∧
    (submittedEvent cexCfg witnessSupply witnessEnv "custom_event" none none
        ⟨(sendBatchStart
            { initialPipelineState with
                eventQueue := [⟨mkTestEvent (witnessSupply.ids 0), .high⟩]
                batchTimeoutArmed := false } none).1, 1⟩ ∉
      ([⟨mkTestEvent (witnessSupply.ids 0), .high⟩] :
        List QueuedEvent).map (·.event)) := by
  have h := claim5_detach_before_send cexCfg witnessSupply witnessEnv
    "custom_event" none none .high
    ⟨{ initialPipelineState with
        eventQueue := [⟨mkTestEvent (witnessSupply.ids 0), .high⟩]
        batchTimeoutArmed := false }, 1⟩ cexConsts ⟨[evA], false⟩
    (by simp) rfl witnessSupply_injective
    (by
      intro e he
      rcases List.mem_singleton.mp he with rfl
      exact ⟨0, Nat.zero_lt_one, rfl⟩)
  exact ⟨h.1, h.2.2.2.2.2.1, h.2.2.2.2.2.2⟩

/-- C6, evaluated at the failing input: submit one event C, then call
destroy before the debounce timer fires, with sendBeacon available and
succeeding.  destroy does flush [C] via sendBeacon, but it does not cancel
the pending debounce timer: its clearTimeout reads the telemetry record's
own batchTimeout field, which is never updated because createTelemetry
hands createSendData a copied state literal.  The still-armed timer then
fires and sendBatch splices the original shared queue array (which
destroy's reassignment never emptied) and makes a second network call with
the same event — two delivery attempts instead of the one the claim
requires. -/
theorem claim6_destroy_duplicate_delivery :
    (dwDestroy (dwSubmit initialDestroyWorld ⟨evC, .high⟩) true
        true).debounceTimerArmed = true ∧
    (dwDestroy (dwSubmit initialDestroyWorld ⟨evC, .high⟩) true
        true).beaconCalls = [[evC]] ∧
    ∃ w3, dwDebounceFire (dwDestroy (dwSubmit initialDestroyWorld
        ⟨evC, .high⟩) true true) = some w3 ∧
      w3.fetchCalls = [[evC]] ∧
      w3.beaconCalls.length + w3.fetchCalls.length = 2 := by
  exact ⟨rfl, rfl, ⟨_, rfl, rfl, rfl⟩⟩

lemma cleanupTrackingIdentifiers_aId (ids : TrackingIds)
    (haid : ids.localStorageAId ≠ some "") :
    (cleanupTrackingIdentifiers ids).localStorageAId = none := by
  unfold cleanupTrackingIdentifiers
  rcases ha : ids.localStorageAId with _ | s
  · simp only [truthyOptStr, ha]
    split <;> (try split) <;> simp_all
  · have hs' : s ≠ "" := by
      intro he
      exact haid (by rw [ha, he])
    simp only [truthyOptStr, ha]
    split <;> (try split) <;> simp_all

lemma cleanupTrackingIdentifiers_cookie (ids : TrackingIds)
    (hsup : ids.crossDomainSupported = true) :
    (cleanupTrackingIdentifiers ids).crossDomainCookie = none := by
  unfold cleanupTrackingIdentifiers
  split <;> simp [hsup]

lemma shouldSend_false (penv : PrivacyEnv) (ids : TrackingIds)
    (hc : penv.storedTelemetryEnabled = some false ∨
      jsOrStr penv.navigatorDoNotTrack penv.windowDoNotTrack = some "1" ∨
      jsOrStr penv.navigatorDoNotTrack penv.windowDoNotTrack = some "yes" ∨
      penv.globalPrivacyControl = some true) :
    shouldSend penv ids = (false, cleanupTrackingIdentifiers ids) := by
  unfold shouldSend
  by_cases hst : penv.storedTelemetryEnabled == some false
  · simp [hst]
  · rcases hc with h | h | h | h
    · exact absurd (by simp [h]) hst
    · simp [hst, h]
    · simp [hst, h]
    · simp [hst, h]

/-- C7: every public send operation (sendPageView, sendClicks, sendForms,
sendModalView, sendCustomEvent — all instances of the shared gate shape
`publicSendOp`, quantified over the operation body) leaves the pipeline
completely untouched when the consent check is false at the time of the
call — stored setting disabled, Do-Not-Track set, or Global Privacy
Control set — so no event is queued or transmitted by that call, and the
persisted identifiers are cleared: the localStorage aId entry is removed
and the cross-domain cookie is expired. -/
theorem claim7_consent_gate (penv : PrivacyEnv) (ids : TrackingIds)
    (ps : PipelineState)
    (hc : penv.storedTelemetryEnabled = some false ∨
      jsOrStr penv.navigatorDoNotTrack penv.windowDoNotTrack = some "1" ∨
      jsOrStr penv.navigatorDoNotTrack penv.windowDoNotTrack = some "yes" ∨
      penv.globalPrivacyControl = some true)
    (haid : ids.localStorageAId ≠ some "")
    (hsup : ids.crossDomainSupported = true) :
    ∀ proceed : PipelineState → PipelineState,
      (publicSendOp penv proceed ps ids).1 = ps ∧
      (publicSendOp penv proceed ps ids).2.localStorageAId = none ∧
      (publicSendOp penv proceed ps ids).2.crossDomainCookie = none := by
  intro proceed
  have hgate := shouldSend_false penv ids hc
  refine ⟨?_, ?_, ?_⟩
  · simp [publicSendOp, hgate]
  · simp [publicSendOp, hgate, cleanupTrackingIdentifiers_aId ids haid]
  · simp [publicSendOp, hgate, cleanupTrackingIdentifiers_cookie ids hsup]

/-- Closed instance of C7, one call per suppression reason: stored setting
false, DNT "1", and GPC set, each with an operation body that would queue
an event if it ran; the pipeline is untouched and the identifiers are
cleared. -/
theorem claim7_witness :
    ((publicSendOp ⟨some false, none, none, none⟩
        (fun st => sendDataStep cexCfg st ⟨evC, .high⟩)
        initialPipelineState ⟨some "aid", some "aid", true⟩).1 =
      initialPipelineState ∧
      (publicSendOp ⟨some false, none, none, none⟩
        (fun st => sendDataStep cexCfg st ⟨evC, .high⟩)
        initialPipelineState
        ⟨some "aid", some "aid", true⟩).2.localStorageAId = none ∧
      (publicSendOp ⟨some false, none, none, none⟩
        (fun st => sendDataStep cexCfg st ⟨evC, .high⟩)
        initialPipelineState
        ⟨some "aid", some "aid", true⟩).2.crossDomainCookie = none) ∧
    ((publicSendOp ⟨none, some "1", none, some true⟩
        (fun st => sendDataStep cexCfg st ⟨evC, .high⟩)
        initialPipelineState ⟨some "aid", some "aid", true⟩).1 =
      initialPipelineState) ∧
    ((publicSendOp ⟨some true, none, none, some true⟩
        (fun st => sendDataStep cexCfg st ⟨evC, .high⟩)
        initialPipelineState ⟨some "aid", some "aid", true⟩).1 =
      initialPipelineState) := by
  refine ⟨claim7_consent_gate ⟨some false, none, none, none⟩
      ⟨some "aid", some "aid", true⟩ initialPipelineState
      (Or.inl rfl) (by decide) rfl _,
    (claim7_consent_gate ⟨none, some "1", none, some true⟩
      ⟨some "aid", some "aid", true⟩ initialPipelineState
      (Or.inr (Or.inl rfl)) (by decide) rfl _).1,
    (claim7_consent_gate ⟨some true, none, none, some true⟩
      ⟨some "aid", some "aid", true⟩ initialPipelineState
      (Or.inr (Or.inr (Or.inr rfl))) (by decide) rfl _).1⟩

/-- C10 counterexample: calling createTelemetry with a user config that
simply omits telemetryEnabled stores true (the merged default), not false,
and the subsequent consent check passes, so events are queued and sent —
the claim's stored-false conclusion fails at this input. -/
theorem claim10_counterexample :
    initStoredTelemetryEnabled (mergedTelemetryEnabled none) none =
      some true ∧
    initStoredTelemetryEnabled (mergedTelemetryEnabled none) none ≠
      some false ∧
    (shouldSend
        { storedTelemetryEnabled :=
            initStoredTelemetryEnabled (mergedTelemetryEnabled none) none
          navigatorDoNotTrack := none
          windowDoNotTrack := none
          globalPrivacyControl := none }
        { localStorageAId := some "aid"
          crossDomainCookie := some "aid"
          crossDomainSupported := true }).1 = true := by
  exact ⟨rfl, by decide, rfl⟩

/-- C10 amended: with telemetryEnabled omitted from the user config the
merged default (true) is stored, for any prior session value; the
stored-false branch applies only when the merged value is undefined (the
user config carries the key with an explicit undefined value) and nothing
is stored for the session — then false is stored, every consent check
fails and suppresses the call without queueing, until
setTelemetryEnabled(true) overwrites the flag. -/
theorem claim10_default_enabled (stored : Option Bool) (penv : PrivacyEnv)
    (ids : TrackingIds) (ps : PipelineState)
    (hp : penv.storedTelemetryEnabled = some false) :
    initStoredTelemetryEnabled (mergedTelemetryEnabled none) stored =
      some true ∧
    initStoredTelemetryEnabled (mergedTelemetryEnabled (some none)) none =
      some false ∧
    (∀ proceed : PipelineState → PipelineState,
      (publicSendOp penv proceed ps ids).1 = ps ∧
      (shouldSend penv ids).1 = false) ∧
    setTelemetryEnabledOp true stored = some true := by
  refine ⟨rfl, rfl, ?_, rfl⟩
  intro proceed
  have hgate : shouldSend penv ids =
      (false, cleanupTrackingIdentifiers ids) := by
    unfold shouldSend
    simp [hp]
  constructor
  · simp [publicSendOp, hgate]
  · rw [hgate]

/-- Closed instance of the amended C10. -/
theorem claim10_witness :
    initStoredTelemetryEnabled (mergedTelemetryEnabled none) (some false) =
      some true ∧
    initStoredTelemetryEnabled (mergedTelemetryEnabled (some none)) none =
      some false ∧
    (publicSendOp ⟨some false, none, none, none⟩
        (fun st => sendDataStep cexCfg st ⟨evC, .high⟩)
        initialPipelineState ⟨some "aid", some "aid", true⟩).1 =
      initialPipelineState ∧
    setTelemetryEnabledOp true (some false) = some true := by
  have h := claim10_default_enabled (some false)
    ⟨some false, none, none, none⟩ ⟨some "aid", some "aid", true⟩
    initialPipelineState rfl
  exact ⟨h.1, h.2.1,
    (h.2.2.1 (fun st => sendDataStep cexCfg st ⟨evC, .high⟩)).1, h.2.2.2⟩

end ProtonTelemetry
